import Mathlib

/-!
Shallow embedding of the PDAL python-bindings build script (`setup.py`).

Python strings are modelled as `List Char` (`PyStr`).  All string
primitives used by the script (`str.split()` with and without an
argument, `str.strip()`, `str.startswith`, slicing `[2:]`, `int()`)
are re-implemented below over `PyStr`, following Python semantics on
the inputs the script feeds them:

  * `pySplitWs` models `s.split()` — split on runs of whitespace,
    no empty tokens;
  * `splitChunks p` models `s.split(sep)` for a one-character
    separator `sep` (the script only ever splits on the one-character
    separators `:`, `;`, `.` and `=`) — empty chunks are kept and the
    empty string splits to one empty chunk;
  * `pyStrip` models `s.strip()`; `stripQuotes` models
    `s.strip("\x22'")`;
  * `pyIntParse` models `int(s)` on the decimal-literal domain the
    script feeds it (optional sign, decimal digits), `none` standing
    for the `ValueError` that `int` raises otherwise.

The script's effects are made explicit: the environment, `os.name`,
`platform.system()`, `sys.argv`, `sys.version_info[0]`, the lines of
`pdal/__init__.py`, `numpy.get_include()` and the behaviour of each
`subprocess.Popen` invocation are fields of a `World`; `runSetup`
replays the module-level statements of `setup.py` from line 79 to
line 165 over a `World`, returning the assembled `Config` (or the
exception the script would raise) together with the chronological
list of options actually passed to `Popen`.
-/

abbrev PyStr := List Char

/-- Convert a Lean string literal to the `PyStr` model. -/
def pys (s : String) : PyStr := s.toList

/-- Python `s.split(sep)` for a one-character separator: split at every
occurrence, keeping empty chunks (`"".split(sep) == [""]`). -/
def splitChunks (p : Char → Bool) : PyStr → List PyStr
  | [] => [[]]
  | c :: cs =>
    let r := splitChunks p cs
    if p c then [] :: r
    else
      match r with
      | [] => [[c]]
      | h :: t => (c :: h) :: t

/-- Python `s.split()` (no argument): whitespace-separated tokens,
empty tokens dropped. -/
def pySplitWs (s : PyStr) : List PyStr :=
  (splitChunks Char.isWhitespace s).filter (fun t => t ≠ [])

/-- Python `s.startswith(pre)`. -/
def startswith (pre s : PyStr) : Bool :=
  match pre, s with
  | [], _ => true
  | _ :: _, [] => false
  | p :: ps, c :: cs => p = c && startswith ps cs

/-- Drop elements satisfying `p` from the right end of a list. -/
def dropRightWhile (p : Char → Bool) (s : PyStr) : PyStr :=
  (s.reverse.dropWhile p).reverse

/-- Python `s.strip()`: remove leading and trailing whitespace. -/
def pyStrip (s : PyStr) : PyStr :=
  dropRightWhile Char.isWhitespace (s.dropWhile Char.isWhitespace)

/-- Python `s.strip("\x22'")`: remove leading and trailing quote
characters. -/
def stripQuotes (s : PyStr) : PyStr :=
  let p : Char → Bool := fun c => c = '"' || c = '\''
  dropRightWhile p (s.dropWhile p)

/-- Decimal value of a digit list, `none` unless nonempty and all
digits. -/
def parseDigits : PyStr → Option Nat
  | [] => Option.none
  | [c] => if c.isDigit then some (c.toNat - 48) else Option.none
  | c :: cs =>
    if c.isDigit then
      (parseDigits cs).map (fun n => (c.toNat - 48) * 10 ^ cs.length + n)
    else Option.none

/-- Python `int(s)` on the decimal-literal domain: strip whitespace,
optional sign, decimal digits; `none` models the `ValueError` raised
on anything else. -/
def pyIntParse (s : PyStr) : Option Int :=
  match pyStrip s with
  | '+' :: rest => (parseDigits rest).map Int.ofNat
  | '-' :: rest => (parseDigits rest).map (fun n => -(n : Int))
  | t => (parseDigits t).map Int.ofNat

/-- The leading dot-separated component of a version token:
`item.split('.')[0]` (the split of any string is nonempty, so the
index is always in range). -/
def leadingComponent (t : PyStr) : PyStr :=
  (splitChunks (fun c => c = '.') t).headD []

/-- The exceptions `setup.py` can raise in the modelled region, named
as in the specification.  `configurationUnavailable` and
`probeExecutionError` are `OSError`s; `probeOutputError`,
`intParseError` and `missingVersionDeclaration` are `ValueError`s;
`versionMismatch` is a plain `Exception`; `indexError` is an
`IndexError`. -/
inductive SetupError where
  | configurationUnavailable (msg : PyStr)
  | probeExecutionError (msg : PyStr)
  | probeOutputError (msg : PyStr)
  | intParseError (s : PyStr)
  | versionMismatch (builtMajor runningMajor : Int)
  | missingVersionDeclaration
  | indexError
  deriving DecidableEq

/-- Which of the modelled exceptions are instances of Python
`ValueError` — exactly those caught by the `except ValueError: pass`
handler around the version-compatibility block. -/
def SetupError.isValueError : SetupError → Bool
  | .probeOutputError _ => true
  | .intParseError _ => true
  | .missingVersionDeclaration => true
  | _ => false

/-- The module-level `pdal_config` value as `get_pdal_config` sees it
via `globals().get`: absent, a string, or some non-string value. -/
inductive PyVal where
  | pnone
  | pstr (s : PyStr)
  | pother
  deriving DecidableEq

/-- Python truthiness of a `PyVal` (an empty string is falsy; the
non-string stand-in is taken truthy, the interesting part being that
it is not a `str`). -/
def PyVal.truthy : PyVal → Bool
  | .pnone => false
  | .pstr s => s ≠ []
  | .pother => true

/-- Python `isinstance(v, str)`. -/
def PyVal.isStr : PyVal → Bool
  | .pstr _ => true
  | _ => false

/-- Outcome of one `subprocess.Popen([pdal_config, option]).communicate()`
call: the `OSError` message when the process cannot be launched, or
the captured `(stdout, stderr)` pair. -/
abbrev ProbeRun := Except PyStr (PyStr × PyStr)

/-- `get_pdal_config(option)` (setup.py lines 52–76), with the
behaviour of the `Popen` call supplied as `run`.  Raises `OSError`
(`configurationUnavailable`) when `pdal_config` is falsy or not a
string — before any process is launched; wraps a launch failure in
`OSError` (`probeExecutionError`); raises `ValueError`
(`probeOutputError`) with the stripped `stderr` when the probe wrote
only to `stderr`; otherwise returns the stripped `stdout`. -/
def get_pdal_config (pdal_config : PyVal) (run : ProbeRun) :
    Except SetupError PyStr :=
  if !pdal_config.truthy || !pdal_config.isStr then
    .error (.configurationUnavailable (pys "Path to pdal-config is not set"))
  else
    match run with
    | .error ex => .error (.probeExecutionError ex)
    | .ok (stdout, stderr) =>
      if stderr ≠ [] && stdout = [] then
        .error (.probeOutputError (pyStrip stderr))
      else
        .ok (pyStrip stdout)

/-- The token loop of the version-compatibility check (setup.py lines
124–132): for each nonempty token, parse the leading dot-separated
component as an integer (`intParseError` modelling the `ValueError`
from `int`) and raise a plain `Exception` (`versionMismatch`) when it
differs from the running major version. -/
def checkVersionTokens (tokens : List PyStr) (runningMajor : Int) :
    Except SetupError Unit :=
  match tokens with
  | [] => .ok ()
  | item :: rest =>
    if item = [] then checkVersionTokens rest runningMajor
    else
      match pyIntParse (leadingComponent item) with
      | Option.none => .error (.intParseError (leadingComponent item))
      | some builtMajor =>
        if builtMajor ≠ runningMajor then
          .error (.versionMismatch builtMajor runningMajor)
        else checkVersionTokens rest runningMajor

/-- The body of the `try` around the version-compatibility check:
query `--python-version` and run the token loop over its
whitespace-split output. -/
def versionProbeAttempt (pdal_config : PyVal) (run : ProbeRun)
    (runningMajor : Int) : Except SetupError Unit :=
  match get_pdal_config pdal_config run with
  | .error e => .error e
  | .ok out => checkVersionTokens (pySplitWs out) runningMajor

/-- The guarded version-compatibility block (setup.py lines 120–136):
query `--python-version`, run the token loop, and swallow any
`ValueError` (`except ValueError: pass`) — other exceptions
propagate. -/
def check_version_compatibility (pdal_config : PyVal) (run : ProbeRun)
    (runningMajor : Int) : Except SetupError Unit :=
  match versionProbeAttempt pdal_config run runningMajor with
  | .error e => if e.isValueError then .ok () else .error e
  | .ok _ => .ok ()

/-- The `--includes` collection loop (setup.py lines 142–144): for
every whitespace-separated token starting with `-I`, extend
`include_dirs` with the separator-split segments of the token minus
its first two characters. -/
def collect_includes (out : PyStr) (sep : Char) : List PyStr :=
  (pySplitWs out).foldl
    (fun acc item =>
      if startswith (pys "-I") item then
        acc ++ splitChunks (fun c => c = sep) (item.drop 2)
      else acc)
    []

/-- The `--libs` collection loop (setup.py lines 146–150): `-L` tokens
are separator-split into `library_dirs`, `-l` tokens are appended
(prefix stripped) to `libraries`. -/
def collect_libs (out : PyStr) (sep : Char) : List PyStr × List PyStr :=
  (pySplitWs out).foldl
    (fun acc item =>
      if startswith (pys "-L") item then
        (acc.1 ++ splitChunks (fun c => c = sep) (item.drop 2), acc.2)
      else if startswith (pys "-l") item then
        (acc.1, acc.2 ++ [item.drop 2])
      else acc)
    ([], [])

/-- The module-version scan (setup.py lines 79–87): the first line of
`pdal/__init__.py` starting with `__version__` yields
`line.split("=")[1].strip().strip("\x22'")` (an `IndexError` when the
line has no `=`); when no line matches, the script raises the
`ValueError` named `missingVersionDeclaration` by the specification.
The `Version(...)` constructor is modelled as the parsed string
itself. -/
def parse_module_version (lines : List PyStr) : Except SetupError PyStr :=
  match lines.find? (fun l => startswith (pys "__version__") l) with
  | Option.none => .error .missingVersionDeclaration
  | some line =>
    match (splitChunks (fun c => c = '=') line).get? 1 with
    | Option.none => .error .indexError
    | some part => .ok (stripQuotes (pyStrip part))

/-- The build configuration assembled by the script: the five
module-level lists handed to `Extension`. -/
structure Config where
  include_dirs : List PyStr
  library_dirs : List PyStr
  libraries : List PyStr
  extra_link_args : List PyStr
  extra_compile_args : List PyStr
  deriving DecidableEq, Inhabited

/-- Everything outside the script that its modelled region reads:
environment, platform identifiers, command-line arguments, the
running interpreter major version, the behaviour of the probe
executable per option, the lines of `pdal/__init__.py`, and
`numpy.get_include()`. -/
structure World where
  envPdalConfig : Option PyStr
  osName : PyStr
  platformSystem : PyStr
  argv : List PyStr
  runningMajor : Int
  probe : PyStr → ProbeRun
  versionFileLines : List PyStr
  numpyInclude : PyStr

/-- `os.name in ['nt']`. -/
def osIsNt (w : World) : Bool := w.osName = pys "nt"

/-- Probe-path resolution (setup.py lines 42–49): the `PDAL_CONFIG`
environment variable when present, else `pdal-config`, with `.bat`
appended when `os.name in ['nt']`. -/
def resolve_pdal_config (w : World) : PyStr :=
  match w.envPdalConfig with
  | some s => s
  | Option.none =>
    if osIsNt w then pys "pdal-config" ++ pys ".bat" else pys "pdal-config"

/-- The fixed Windows library list (setup.py line 113). -/
def fixedWindowsLibraries : List PyStr :=
  [pys "pdalcpp", pys "pdal_plugin_reader_numpy", pys "pdal_util", pys "ws2_32"]

/-- Platform defaults for the five lists (setup.py lines 105–114). -/
def initialConfig (w : World) : Config :=
  if osIsNt w then
    { include_dirs := []
      library_dirs := [pys "c:/OSGeo4W64/lib"]
      libraries := fixedWindowsLibraries
      extra_link_args := []
      extra_compile_args := [pys "/DNOMINMAX"] }
  else
    { include_dirs := []
      library_dirs := []
      libraries := []
      extra_link_args := []
      extra_compile_args := [] }

/-- `separator` (setup.py lines 138–140): `;` on `nt`, else `:`. -/
def sepForOs (w : World) : Char := if osIsNt w then ';' else ':'

/-- The part of the unconditional tail preceding the Darwin rpath
line (setup.py lines 152–155): append `numpy.get_include()` to
`include_dirs`, and on non-`nt` replace `extra_compile_args` with the
standard flags. -/
def preDarwinConfig (w : World) (cfg : Config) : Config :=
  if !osIsNt w then
    { cfg with
      include_dirs := cfg.include_dirs ++ [w.numpyInclude]
      extra_compile_args := [pys "-std=c++11", pys "-Wno-unknown-pragmas"] }
  else
    { cfg with include_dirs := cfg.include_dirs ++ [w.numpyInclude] }

/-- The Darwin rpath line (setup.py lines 157–158): on Darwin, append
the runtime-search-path linker flag built from `library_dirs[0]` — an
`IndexError` when `library_dirs` is empty. -/
def darwinStep (w : World) (cfg : Config) : Except SetupError Config :=
  if w.platformSystem = pys "Darwin" then
    match cfg.library_dirs with
    | [] => .error .indexError
    | d :: _ =>
      .ok { cfg with extra_link_args :=
              cfg.extra_link_args ++ [pys "-Wl,-rpath," ++ d] }
  else .ok cfg

/-- The part of the unconditional tail following the Darwin rpath line
(setup.py lines 160–165): on non-`nt` append the debug flags (the
`DEBUG` constant is `True`), then append `pdal_plugin_reader_numpy`
to `libraries`. -/
def postDarwinConfig (w : World) (cfg : Config) : Config :=
  if !osIsNt w then
    { cfg with
      extra_compile_args := cfg.extra_compile_args ++ [pys "-g", pys "-O0"]
      libraries := cfg.libraries ++ [pys "pdal_plugin_reader_numpy"] }
  else
    { cfg with libraries := cfg.libraries ++ [pys "pdal_plugin_reader_numpy"] }

/-- The unconditional tail of the script (setup.py lines 152–165). -/
def finishSetup (w : World) (cfg : Config) : Except SetupError Config :=
  match darwinStep w (preDarwinConfig w cfg) with
  | .error e => .error e
  | .ok cfg2 => .ok (postDarwinConfig w cfg2)

/-- The probe block with its three queries (setup.py lines 118–150),
threading the chronological list of options actually passed to
`Popen`. -/
def probeBlock (w : World) (pdal_config : PyStr) (cfg : Config) :
    Except SetupError Config × List PyStr :=
  match check_version_compatibility (PyVal.pstr pdal_config)
      (w.probe (pys "--python-version")) w.runningMajor with
  | .error e => (.error e, [pys "--python-version"])
  | .ok _ =>
    match get_pdal_config (PyVal.pstr pdal_config)
        (w.probe (pys "--includes")) with
    | .error e => (.error e, [pys "--python-version", pys "--includes"])
    | .ok incOut =>
      match get_pdal_config (PyVal.pstr pdal_config)
          (w.probe (pys "--libs")) with
      | .error e =>
        (.error e,
         [pys "--python-version", pys "--includes", pys "--libs"])
      | .ok libOut =>
        (.ok
          { cfg with
            include_dirs :=
              cfg.include_dirs ++ collect_includes incOut (sepForOs w)
            library_dirs :=
              cfg.library_dirs ++ (collect_libs libOut (sepForOs w)).1
            libraries :=
              cfg.libraries ++ (collect_libs libOut (sepForOs w)).2 },
         [pys "--python-version", pys "--includes", pys "--libs"])

/-- The modelled module-level run of `setup.py` (lines 79–165):
version scan, platform defaults, the probe block when `pdal_config`
is truthy and `clean` is absent from `sys.argv`, then the
unconditional tail.  Returns the outcome and the list of options
passed to `Popen`, in order. -/
def runSetup (w : World) : Except SetupError Config × List PyStr :=
  match parse_module_version w.versionFileLines with
  | .error e => (.error e, [])
  | .ok _ =>
    if resolve_pdal_config w ≠ [] && !(w.argv.contains (pys "clean")) then
      match probeBlock w (resolve_pdal_config w) (initialConfig w) with
      | (.error e, log) => (.error e, log)
      | (.ok cfg, log) => (finishSetup w cfg, log)
    else
      (finishSetup w (initialConfig w), [])

/-- Syntactic equality of probe outcomes is decidable (used by the
concrete-world evaluations). -/
instance {e a : Type} [DecidableEq e] [DecidableEq a] : DecidableEq (Except e a)
  | .error x, .error y =>
    if h : x = y then .isTrue (h ▸ rfl)
    else .isFalse (fun hh => h (Except.error.inj hh))
  | .error _, .ok _ => .isFalse (fun hh => Except.noConfusion hh)
  | .ok _, .error _ => .isFalse (fun hh => Except.noConfusion hh)
  | .ok x, .ok y =>
    if h : x = y then .isTrue (h ▸ rfl)
    else .isFalse (fun hh => h (Except.ok.inj hh))

/-- The include-collection step as the specification words it: the
ordered concatenation, over the whitespace-separated tokens in
encounter order, of the path-separator-split segments of each token
beginning with `-I` (prefix stripped), tokens not beginning with `-I`
contributing nothing.  Second definition written from the
specification, to be compared with `collect_includes`, which is
transcribed from the source. -/
def includesClaim (out : PyStr) (sep : Char) : List PyStr :=
  (pySplitWs out).flatMap (fun item =>
    if startswith (pys "-I") item then
      splitChunks (fun c => c = sep) (item.drop 2)
    else [])

/-- The libs-collection step as the specification words it: `-L`
tokens prefix-stripped and separator-split into `library_dirs`, `-l`
tokens prefix-stripped into `libraries`, each in encounter order.
Second definition written from the specification, to be compared with
`collect_libs`, which is transcribed from the source. -/
def libsClaim (out : PyStr) (sep : Char) : List PyStr × List PyStr :=
  ((pySplitWs out).flatMap (fun item =>
      if startswith (pys "-L") item then
        splitChunks (fun c => c = sep) (item.drop 2)
      else []),
   (pySplitWs out).flatMap (fun item =>
      if startswith (pys "-l") item then [item.drop 2] else []))

/-! Concrete worlds used by scenario conjuncts, counterexamples and
witnesses. -/

/-- A POSIX world matching the specification scenarios: the probe
reports matching versions, two `-I` include flags and one `-L` plus
two `-l` lib flags. -/
def wScenario : World :=
  { envPdalConfig := Option.none
    osName := pys "posix"
    platformSystem := pys "Linux"
    argv := [pys "build"]
    runningMajor := 3
    probe := fun opt =>
      if opt = pys "--python-version" then .ok (pys "3.5.2", [])
      else if opt = pys "--includes" then
        .ok (pys "-I/usr/include/pdal -I/usr/local/include", [])
      else if opt = pys "--libs" then
        .ok (pys "-L/usr/lib -lpdalcpp -lpdal_util", [])
      else .error (pys "bad option")
    versionFileLines := [pys "__version__ = '1.2.3'"]
    numpyInclude := pys "/np" }

/-- A POSIX world invoked with `clean` among the build arguments. -/
def wClean : World :=
  { envPdalConfig := Option.none
    osName := pys "posix"
    platformSystem := pys "Linux"
    argv := [pys "clean"]
    runningMajor := 3
    probe := fun _ => .ok ([], [])
    versionFileLines := [pys "__version__ = '1.2.3'"]
    numpyInclude := pys "/np" }

/-- A Windows (`nt`) world whose probe reports one extra `-l`
library. -/
def wNt : World :=
  { envPdalConfig := some (pys "C:/pdal-config.bat")
    osName := pys "nt"
    platformSystem := pys "Windows"
    argv := []
    runningMajor := 3
    probe := fun opt =>
      if opt = pys "--python-version" then .ok (pys "3.5.2", [])
      else if opt = pys "--libs" then .ok (pys "-lfoo", [])
      else .ok ([], [])
    versionFileLines := [pys "__version__ = '1.2.3'"]
    numpyInclude := pys "/np" }

/-- The clean world with no version-declaration line in the version
file. -/
def wNoVersion : World :=
  { wClean with versionFileLines := [pys "x = 1"] }

/-- The clean world on Darwin. -/
def wDarwinClean : World :=
  { wClean with platformSystem := pys "Darwin" }

/-! Helper lemmas shared by the claim theorems. -/

/-- Folding list-append over a list is the flat map of the appended
pieces. -/
theorem foldl_append_eq_flatMap (f : PyStr → List PyStr) (l : List PyStr)
    (init : List PyStr) :
    l.foldl (fun acc item => acc ++ f item) init = init ++ l.flatMap f := by
  induction l generalizing init with
  | nil => simp
  | cons x xs ih => simp [List.foldl_cons, ih, List.append_assoc]

/-- A token starting with `-L` does not start with `-l` (Python
`startswith` is case-sensitive), so the `elif` branch of the libs loop
is mutually exclusive with the `if` branch. -/
theorem startswith_L_not_l (item : PyStr) (h : startswith (pys "-L") item = true) :
    startswith (pys "-l") item = false := by
  have e1 : pys "-L" = ['-', 'L'] := rfl
  have e2 : pys "-l" = ['-', 'l'] := rfl
  rw [e1] at h
  rw [e2]
  match item with
  | [] => simp [startswith] at h
  | [c] => simp [startswith] at h
  | c :: d :: rest =>
    simp only [startswith, Bool.and_eq_true, decide_eq_true_eq] at h
    obtain ⟨hc, hd, -⟩ := h
    subst hd
    have hne : ('l' : Char) ≠ 'L' := by decide
    simp [startswith, hne]

/-- A successful probe launch with nonempty standard output returns
the stripped standard output, whatever standard error held. -/
theorem get_pdal_config_ok (p out err : PyStr) (hp : p ≠ []) (hout : out ≠ []) :
    get_pdal_config (PyVal.pstr p) (.ok (out, err)) = .ok (pyStrip out) := by
  simp [get_pdal_config, PyVal.truthy, PyVal.isStr, hp, hout]

/-- The Darwin rpath line never changes `include_dirs`,
`library_dirs` or `libraries`. -/
theorem darwinStep_ok_fields (w : World) (cfg c : Config)
    (h : darwinStep w cfg = .ok c) :
    c.include_dirs = cfg.include_dirs ∧ c.library_dirs = cfg.library_dirs ∧
    c.libraries = cfg.libraries := by
  unfold darwinStep at h
  split at h
  · split at h
    · cases h
    · cases h; simp
  · cases h; simp

/-- Effect of the pre-Darwin tail on the three path lists. -/
theorem preDarwinConfig_fields (w : World) (cfg : Config) :
    (preDarwinConfig w cfg).include_dirs = cfg.include_dirs ++ [w.numpyInclude] ∧
    (preDarwinConfig w cfg).library_dirs = cfg.library_dirs ∧
    (preDarwinConfig w cfg).libraries = cfg.libraries := by
  unfold preDarwinConfig
  by_cases h : osIsNt w <;> simp [h]

/-- Effect of the whole unconditional tail on the three path lists,
whenever it does not raise. -/
theorem finishSetup_ok_fields (w : World) (cfg c : Config)
    (h : finishSetup w cfg = .ok c) :
    c.include_dirs = cfg.include_dirs ++ [w.numpyInclude] ∧
    c.library_dirs = cfg.library_dirs ∧
    c.libraries = cfg.libraries ++ [pys "pdal_plugin_reader_numpy"] := by
  unfold finishSetup at h
  cases hd : darwinStep w (preDarwinConfig w cfg) with
  | error e => rw [hd] at h; cases h
  | ok cfg2 =>
    rw [hd] at h
    cases h
    obtain ⟨i1, l1, b1⟩ := darwinStep_ok_fields w _ _ hd
    obtain ⟨i0, l0, b0⟩ := preDarwinConfig_fields w cfg
    unfold postDarwinConfig
    by_cases hw : osIsNt w <;>
      simp [hw, i1, l1, b1, i0, l0, b0]

/-- The token loop accepts a token list in which every nonempty token
has the running major version as its parsed leading component. -/
theorem checkVersionTokens_all_ok (tokens : List PyStr) (r : Int)
    (h : ∀ t ∈ tokens, t ≠ [] → pyIntParse (leadingComponent t) = some r) :
    checkVersionTokens tokens r = .ok () := by
  induction tokens with
  | nil => rfl
  | cons item rest ih =>
    by_cases hi : item = []
    · simp only [checkVersionTokens, hi, if_true]
      exact ih (fun t ht hn => h t (List.mem_cons_of_mem _ ht) hn)
    · have hp := h item (List.mem_cons_self _ _) hi
      simp only [checkVersionTokens, hi, if_false, hp]
      simp only [ne_eq, not_true_eq_false, if_false]
      exact ih (fun t ht hn => h t (List.mem_cons_of_mem _ ht) hn)

/-- When every token parses and some nonempty token disagrees with
the running major version, the token loop raises `versionMismatch`. -/
theorem checkVersionTokens_mismatch (tokens : List PyStr) (r : Int)
    (hall : ∀ t ∈ tokens, (pyIntParse (leadingComponent t)).isSome = true)
    (hex : ∃ t ∈ tokens, t ≠ [] ∧ pyIntParse (leadingComponent t) ≠ some r) :
    ∃ b, checkVersionTokens tokens r = .error (.versionMismatch b r) ∧ b ≠ r := by
  induction tokens with
  | nil => simp at hex
  | cons item rest ih =>
    by_cases hi : item = []
    · have hex2 : ∃ t ∈ rest, t ≠ [] ∧ pyIntParse (leadingComponent t) ≠ some r := by
        rcases hex with ⟨t, ht, hne, hbad⟩
        rcases List.mem_cons.mp ht with hh | hh
        · exact absurd (hh.trans hi) hne
        · exact ⟨t, hh, hne, hbad⟩
      have hrec := ih (fun t ht => hall t (List.mem_cons_of_mem _ ht)) hex2
      simpa only [checkVersionTokens, hi, if_true] using hrec
    · obtain ⟨m, hm⟩ := Option.isSome_iff_exists.mp (hall item (List.mem_cons_self _ _))
      by_cases hmr : m = r
      · subst hmr
        have hex2 : ∃ t ∈ rest, t ≠ [] ∧ pyIntParse (leadingComponent t) ≠ some m := by
          rcases hex with ⟨t, ht, hne, hbad⟩
          rcases List.mem_cons.mp ht with hh | hh
          · subst hh; exact absurd hm hbad
          · exact ⟨t, hh, hne, hbad⟩
        have hrec := ih (fun t ht => hall t (List.mem_cons_of_mem _ ht)) hex2
        obtain ⟨b, hb, hbr⟩ := hrec
        refine ⟨b, ?_, hbr⟩
        simp only [checkVersionTokens, hi, if_false, hm]
        simpa using hb
      · refine ⟨m, ?_, hmr⟩
        simp only [checkVersionTokens, hi, if_false, hm]
        simp [hmr]

/-- A successful probe block only ever appends to `libraries`. -/
theorem probeBlock_ok_libraries (w : World) (p : PyStr) (cfg c : Config)
    (log : List PyStr) (h : probeBlock w p cfg = (.ok c, log)) :
    ∃ mid, c.libraries = cfg.libraries ++ mid := by
  unfold probeBlock at h
  split at h
  · simp at h
  · split at h
    · simp at h
    · split at h
      · simp at h
      · simp only [Prod.mk.injEq, Except.ok.injEq] at h
        obtain ⟨hc, -⟩ := h
        subst hc
        exact ⟨_, rfl⟩

/-- When the version scan fails, the script stops there: the failure
is returned and no probe option is ever passed to `Popen`. -/
theorem runSetup_version_error (w : World) (e : SetupError)
    (hv : parse_module_version w.versionFileLines = .error e) :
    runSetup w = (.error e, []) := by
  unfold runSetup
  simp only [hv]

/-- When the probe guard is false the script runs the unconditional
tail over the platform defaults and passes nothing to `Popen`. -/
theorem runSetup_skip (w : World) (v : PyStr)
    (hv : parse_module_version w.versionFileLines = .ok v)
    (hcond : (resolve_pdal_config w ≠ [] && !w.argv.contains (pys "clean")) = false) :
    runSetup w = (finishSetup w (initialConfig w), []) := by
  unfold runSetup
  simp only [hv, hcond, Bool.false_eq_true, if_false]

/-- When the probe guard is true the script runs the probe block and
then the unconditional tail. -/
theorem runSetup_probe (w : World) (v : PyStr)
    (hv : parse_module_version w.versionFileLines = .ok v)
    (hcond : (resolve_pdal_config w ≠ [] && !w.argv.contains (pys "clean")) = true) :
    runSetup w =
      (match probeBlock w (resolve_pdal_config w) (initialConfig w) with
       | (.error e, log) => (.error e, log)
       | (.ok cfg, log) => (finishSetup w cfg, log)) := by
  unfold runSetup
  simp only [hv, hcond, if_true]

/-- On Darwin with an empty `library_dirs`, the unconditional tail
raises `IndexError` at `library_dirs[0]`. -/
theorem finishSetup_darwin_empty (w : World) (cfg : Config)
    (hd : w.platformSystem = pys "Darwin") (hemp : cfg.library_dirs = []) :
    finishSetup w cfg = .error .indexError := by
  have hpre := (preDarwinConfig_fields w cfg).2.1
  unfold finishSetup darwinStep
  rw [if_pos hd, hpre, hemp]

/-- With a nonempty `library_dirs` the unconditional tail always
completes. -/
theorem finishSetup_nonempty_ok (w : World) (cfg : Config)
    (hne : cfg.library_dirs ≠ []) : ∃ c, finishSetup w cfg = .ok c := by
  have hpre := (preDarwinConfig_fields w cfg).2.1
  unfold finishSetup darwinStep
  by_cases hd : w.platformSystem = pys "Darwin"
  · rw [if_pos hd]
    cases hl : cfg.library_dirs with
    | nil => exact absurd hl hne
    | cons d ds =>
      rw [hpre, hl]
      exact ⟨_, rfl⟩
  · rw [if_neg hd]
    exact ⟨_, rfl⟩

/-- Generalised accumulator form of the libs loop: folding from any
pair appends exactly the flat maps of the two token families. -/
theorem libs_foldl_go (sep : Char) (l : List PyStr) (a b : List PyStr) :
    l.foldl (fun acc item =>
      if startswith (pys "-L") item then
        (acc.1 ++ splitChunks (fun c => c = sep) (item.drop 2), acc.2)
      else if startswith (pys "-l") item then (acc.1, acc.2 ++ [item.drop 2])
      else acc) (a, b)
    = (a ++ l.flatMap (fun item =>
          if startswith (pys "-L") item then
            splitChunks (fun c => c = sep) (item.drop 2)
          else []),
       b ++ l.flatMap (fun item =>
          if startswith (pys "-l") item then [item.drop 2] else [])) := by
  induction l generalizing a b with
  | nil => simp
  | cons x xs ih =>
    by_cases hL : startswith (pys "-L") x = true
    · have hl : startswith (pys "-l") x = false := startswith_L_not_l x hL
      simp [List.foldl_cons, hL, hl, ih, List.append_assoc]
    · by_cases hl : startswith (pys "-l") x = true
      · simp [List.foldl_cons, hL, hl, ih, List.append_assoc]
      · simp [List.foldl_cons, hL, hl, ih]

/-! Claim theorems. -/

/-- Claim C1: for every probe output string and every path-list
separator, the include-collection loop produces an `include_dirs`
sequence equal to the ordered concatenation of the separator-split
segments of every whitespace-separated token beginning with `-I`
(prefix stripped), in encounter order, other tokens contributing
nothing; the separator is a semicolon on the Windows-like platform
and a colon elsewhere; and on the specification scenario the final
`include_dirs` is the two probe paths followed by the numpy include
directory. -/
theorem collect_includes_correct :
    (∀ out sep, collect_includes out sep = includesClaim out sep) ∧
    (∀ w, sepForOs w = if osIsNt w then ';' else ':') ∧
    (runSetup wScenario).1.toOption.map Config.include_dirs =
      some [pys "/usr/include/pdal", pys "/usr/local/include", pys "/np"] := by
  refine ⟨?_, fun w => rfl, by decide⟩
  intro out sep
  unfold collect_includes includesClaim
  have hf : (fun (acc : List PyStr) (item : PyStr) =>
      if startswith (pys "-I") item then
        acc ++ splitChunks (fun c => c = sep) (item.drop 2)
      else acc)
      = (fun acc item => acc ++
          (if startswith (pys "-I") item then
            splitChunks (fun c => c = sep) (item.drop 2)
          else [])) := by
    funext acc item
    by_cases h : startswith (pys "-I") item = true <;> simp [h]
  rw [hf, foldl_append_eq_flatMap]
  simp

/-- Claim C2: for every probe output and separator, the libs loop
sends prefix-stripped, separator-split `-L` tokens to `library_dirs`
and prefix-stripped `-l` tokens to `libraries`, each in encounter
order; and on the non-Windows scenario output
`-L/usr/lib -lpdalcpp -lpdal_util` the final `library_dirs` is
`[/usr/lib]` and `libraries` begins with `pdalcpp, pdal_util` and
ends with the unconditionally appended plugin library name. -/
theorem collect_libs_correct :
    (∀ out sep, collect_libs out sep = libsClaim out sep) ∧
    (runSetup wScenario).1.toOption.map Config.library_dirs =
      some [pys "/usr/lib"] ∧
    (runSetup wScenario).1.toOption.map Config.libraries =
      some [pys "pdalcpp", pys "pdal_util", pys "pdal_plugin_reader_numpy"] := by
  refine ⟨?_, by decide, by decide⟩
  intro out sep
  unfold collect_libs libsClaim
  simpa using libs_foldl_go sep (pySplitWs out) [] []

/-- Claim C3: over any probe standard output whose whitespace tokens
all have an integer-parseable leading dot-separated component, the
version-compatibility check raises `versionMismatch` when some token
disagrees with the running major version and succeeds when every
token agrees; and a probe answering only on standard error (older
probes without the flag) is swallowed as a non-fatal pass. -/
theorem version_compatibility_check (out err stderr p : PyStr) (r : Int)
    (hp : p ≠ []) (hout : out ≠ []) (hs : stderr ≠ []) :
    ((∀ t ∈ pySplitWs (pyStrip out), (pyIntParse (leadingComponent t)).isSome = true) →
      ((∃ t ∈ pySplitWs (pyStrip out), t ≠ [] ∧
          pyIntParse (leadingComponent t) ≠ some r) →
        ∃ b, check_version_compatibility (PyVal.pstr p) (.ok (out, err)) r =
          .error (.versionMismatch b r) ∧ b ≠ r) ∧
      ((∀ t ∈ pySplitWs (pyStrip out), t ≠ [] →
          pyIntParse (leadingComponent t) = some r) →
        check_version_compatibility (PyVal.pstr p) (.ok (out, err)) r = .ok ())) ∧
    check_version_compatibility (PyVal.pstr p) (.ok ([], stderr)) r = .ok () := by
  have hatt : versionProbeAttempt (PyVal.pstr p) (.ok (out, err)) r =
      checkVersionTokens (pySplitWs (pyStrip out)) r := by
    unfold versionProbeAttempt
    rw [get_pdal_config_ok p out err hp hout]
  constructor
  · intro hall
    constructor
    · intro hex
      obtain ⟨b, hb, hbr⟩ := checkVersionTokens_mismatch _ r hall hex
      refine ⟨b, ?_, hbr⟩
      unfold check_version_compatibility
      rw [hatt, hb]
      rfl
    · intro hmatch
      unfold check_version_compatibility
      rw [hatt, checkVersionTokens_all_ok _ r hmatch]
  · have hatt2 : versionProbeAttempt (PyVal.pstr p) (.ok ([], stderr)) r =
        .error (.probeOutputError (pyStrip stderr)) := by
      unfold versionProbeAttempt
      have hge : get_pdal_config (PyVal.pstr p) (.ok ([], stderr)) =
          .error (.probeOutputError (pyStrip stderr)) := by
        simp [get_pdal_config, PyVal.truthy, PyVal.isStr, hp, hs]
      rw [hge]
    unfold check_version_compatibility
    rw [hatt2]
    rfl

/-- Witness for claim C3: version `2.7.4` against running major 3
raises the mismatch, `3.5.2` passes, and a standard-error-only answer
is swallowed. -/
theorem version_compatibility_check_witness :
    (∃ b, check_version_compatibility (PyVal.pstr (pys "pdal-config"))
        (.ok (pys "2.7.4", [])) 3 = .error (.versionMismatch b 3) ∧ b ≠ 3) ∧
    check_version_compatibility (PyVal.pstr (pys "pdal-config"))
        (.ok (pys "3.5.2", [])) 3 = .ok () ∧
    check_version_compatibility (PyVal.pstr (pys "pdal-config"))
        (.ok ([], pys "Usage: pdal-config")) 3 = .ok () := by
  have h1 := version_compatibility_check (pys "2.7.4") [] (pys "Usage: pdal-config")
    (pys "pdal-config") 3 (by decide) (by decide) (by decide)
  have h2 := version_compatibility_check (pys "3.5.2") [] (pys "Usage: pdal-config")
    (pys "pdal-config") 3 (by decide) (by decide) (by decide)
  exact ⟨(h1.1 (by decide)).1 (by decide), (h2.1 (by decide)).2 (by decide), h1.2⟩

/-- Claim C4: a probe invocation whose child process wrote only to
standard error with empty standard output fails with
`probeOutputError` carrying the stripped error text, returning no
value. -/
theorem probe_stderr_only_fails (p stderr : PyStr) (hp : p ≠ []) (hs : stderr ≠ []) :
    get_pdal_config (PyVal.pstr p) (.ok ([], stderr)) =
      .error (.probeOutputError (pyStrip stderr)) := by
  simp [get_pdal_config, PyVal.truthy, PyVal.isStr, hp, hs]

/-- Witness for claim C4 on a concrete error message. -/
theorem probe_stderr_only_fails_witness :
    get_pdal_config (PyVal.pstr (pys "pdal-config")) (.ok ([], pys " not found ")) =
      .error (.probeOutputError (pyStrip (pys " not found "))) :=
  probe_stderr_only_fails (pys "pdal-config") (pys " not found ")
    (by decide) (by decide)

/-- Counterexample to claim C5: on a clean non-Windows invocation no
probe option is passed to `Popen` and `library_dirs` stays at its
pre-probe default, but the resulting `include_dirs` is the numpy
include directory and the resulting `libraries` is the plugin library
name — both nonempty, not the empty pre-probe defaults the claim
asserts. -/
theorem clean_defaults_counterexample :
    (runSetup wClean).2 = [] ∧
    (runSetup wClean).1.toOption.map Config.include_dirs = some [pys "/np"] ∧
    (runSetup wClean).1.toOption.map Config.libraries =
      some [pys "pdal_plugin_reader_numpy"] ∧
    (runSetup wClean).1.toOption.map Config.library_dirs = some [] ∧
    (initialConfig wClean).include_dirs = [] ∧
    (initialConfig wClean).libraries = [] ∧
    [pys "/np"] ≠ ([] : List PyStr) ∧
    [pys "pdal_plugin_reader_numpy"] ≠ ([] : List PyStr) := by decide

/-- Claim C5 as amended: whenever `clean` is among the build
arguments, no probe invocation occurs, and in the resulting
configuration `library_dirs` equals its pre-probe platform default
while `include_dirs` and `libraries` equal their pre-probe defaults
plus, respectively, the unconditionally appended numpy include
directory and plugin library name. -/
theorem clean_skips_probe (w : World) (h : pys "clean" ∈ w.argv) :
    (runSetup w).2 = [] ∧
    ∀ c, (runSetup w).1 = .ok c →
      c.library_dirs = (initialConfig w).library_dirs ∧
      c.include_dirs = (initialConfig w).include_dirs ++ [w.numpyInclude] ∧
      c.libraries = (initialConfig w).libraries ++ [pys "pdal_plugin_reader_numpy"] := by
  have hcon : w.argv.contains (pys "clean") = true := List.elem_eq_true_of_mem h
  have hcond : (resolve_pdal_config w ≠ [] && !w.argv.contains (pys "clean")) = false := by
    rw [hcon]; simp
  cases hv : parse_module_version w.versionFileLines with
  | error e =>
    rw [runSetup_version_error w e hv]
    exact ⟨rfl, fun c hc => by simp at hc⟩
  | ok v =>
    rw [runSetup_skip w v hv hcond]
    refine ⟨rfl, fun c hc => ?_⟩
    obtain ⟨hi, hl, hb⟩ := finishSetup_ok_fields w (initialConfig w) c hc
    exact ⟨hl, hi, hb⟩

/-- Witness for the amended claim C5 on the concrete clean world. -/
theorem clean_skips_probe_witness :
    (runSetup wClean).2 = [] ∧
    ((runSetup wClean).1.toOption.getD default).library_dirs =
      (initialConfig wClean).library_dirs ∧
    ((runSetup wClean).1.toOption.getD default).include_dirs =
      (initialConfig wClean).include_dirs ++ [wClean.numpyInclude] ∧
    ((runSetup wClean).1.toOption.getD default).libraries =
      (initialConfig wClean).libraries ++ [pys "pdal_plugin_reader_numpy"] := by
  have h := clean_skips_probe wClean (by decide)
  exact ⟨h.1, h.2 _ (by decide)⟩

/-- Counterexample to claim C6: on the Windows-like branch with a
probe reporting an extra `-lfoo`, the final `libraries` contains
`foo`, which is not in the fixed required set — so `libraries` does
not contain exactly the fixed set regardless of what the probe
returns. -/
theorem windows_fixed_libraries_counterexample :
    (runSetup wNt).1.toOption.map Config.libraries =
      some (fixedWindowsLibraries ++ [pys "foo", pys "pdal_plugin_reader_numpy"]) ∧
    pys "foo" ∈ fixedWindowsLibraries ++ [pys "foo", pys "pdal_plugin_reader_numpy"] ∧
    pys "foo" ∉ fixedWindowsLibraries := by decide

/-- Claim C6 as amended: on the Windows-like platform branch, any
configuration the build completes with has a `libraries` sequence
that begins with the fixed required set (so contains all of it),
regardless of probe availability or output; the probe may append
further names and the plugin name is appended once more at the
end. -/
theorem windows_libraries_superset (w : World) (hnt : osIsNt w = true) :
    ∀ c, (runSetup w).1 = .ok c →
      ∃ rest, c.libraries = fixedWindowsLibraries ++ rest := by
  intro c hc
  have hinit : (initialConfig w).libraries = fixedWindowsLibraries := by
    simp [initialConfig, hnt]
  cases hv : parse_module_version w.versionFileLines with
  | error e =>
    rw [runSetup_version_error w e hv] at hc
    simp at hc
  | ok v =>
    cases hg : (resolve_pdal_config w ≠ [] && !w.argv.contains (pys "clean")) with
    | false =>
      rw [runSetup_skip w v hv hg] at hc
      have hfin : finishSetup w (initialConfig w) = .ok c := hc
      obtain ⟨-, -, hb⟩ := finishSetup_ok_fields w _ c hfin
      exact ⟨[pys "pdal_plugin_reader_numpy"], by rw [hb, hinit]⟩
    | true =>
      rw [runSetup_probe w v hv hg] at hc
      rcases hpb : probeBlock w (resolve_pdal_config w) (initialConfig w) with ⟨res, log⟩
      rw [hpb] at hc
      cases res with
      | error e => simp at hc
      | ok cfg1 =>
        have hfin : finishSetup w cfg1 = .ok c := hc
        obtain ⟨mid, hmid⟩ := probeBlock_ok_libraries w _ _ _ _ hpb
        obtain ⟨-, -, hb⟩ := finishSetup_ok_fields w cfg1 c hfin
        refine ⟨mid ++ [pys "pdal_plugin_reader_numpy"], ?_⟩
        rw [hb, hmid, hinit, List.append_assoc]

/-- Witness for the amended claim C6 on the concrete Windows
world. -/
theorem windows_libraries_superset_witness :
    ∃ rest, ((runSetup wNt).1.toOption.getD default).libraries =
      fixedWindowsLibraries ++ rest :=
  windows_libraries_superset wNt (by decide) _ (by decide)

/-- Claim C7: when no line of the version file starts with the
version marker, the build fails with `missingVersionDeclaration` and
no probe option is ever passed to `Popen`. -/
theorem missing_version_fails_before_probe (w : World)
    (h : ∀ line ∈ w.versionFileLines, startswith (pys "__version__") line = false) :
    runSetup w = (.error .missingVersionDeclaration, []) := by
  have hv : parse_module_version w.versionFileLines =
      .error .missingVersionDeclaration := by
    unfold parse_module_version
    have hfind : w.versionFileLines.find?
        (fun l => startswith (pys "__version__") l) = Option.none := by
      rw [List.find?_eq_none]
      intro l hl
      simp [h l hl]
    rw [hfind]
  exact runSetup_version_error w _ hv

/-- Witness for claim C7 on a version file with no marker line. -/
theorem missing_version_fails_before_probe_witness :
    runSetup wNoVersion = (.error .missingVersionDeclaration, []) :=
  missing_version_fails_before_probe wNoVersion (by decide)

/-- Claim C8: a query made while the probe path is falsy or not a
string fails with `configurationUnavailable`, whatever the child
process would have done — in particular no launch outcome is ever
consulted. -/
theorem query_unset_path_fails (pv : PyVal) (run : ProbeRun)
    (h : pv.truthy = false ∨ pv.isStr = false) :
    get_pdal_config pv run =
      .error (.configurationUnavailable (pys "Path to pdal-config is not set")) := by
  unfold get_pdal_config
  rcases h with h | h <;> simp [h]

/-- Witness for claim C8 with an absent probe path. -/
theorem query_unset_path_fails_witness :
    get_pdal_config PyVal.pnone (.ok (pys "some output", [])) =
      .error (.configurationUnavailable (pys "Path to pdal-config is not set")) :=
  query_unset_path_fails PyVal.pnone (.ok (pys "some output", [])) (Or.inl rfl)

/-- Claim C9: probe-path resolution returns the environment override
whenever it is set, and otherwise the conventional default name with
the `.bat` suffix exactly on the Windows-like family; the result
depends only on the environment variable and the platform name, so no
existence check is involved. -/
theorem resolve_probe_path_spec (w : World) :
    (∀ s, w.envPdalConfig = some s → resolve_pdal_config w = s) ∧
    (w.envPdalConfig = Option.none →
      resolve_pdal_config w =
        if osIsNt w then pys "pdal-config" ++ pys ".bat" else pys "pdal-config") ∧
    (∀ w2, w2.envPdalConfig = w.envPdalConfig → w2.osName = w.osName →
      resolve_pdal_config w2 = resolve_pdal_config w) := by
  refine ⟨?_, ?_, ?_⟩
  · intro s hs
    unfold resolve_pdal_config
    rw [hs]
  · intro hn
    unfold resolve_pdal_config
    rw [hn]
  · intro w2 he ho
    unfold resolve_pdal_config osIsNt
    rw [he, ho]

/-- Witness for claim C9: default resolution on POSIX without the
override, and override resolution on the Windows world. -/
theorem resolve_probe_path_spec_witness :
    resolve_pdal_config wClean = pys "pdal-config" ∧
    resolve_pdal_config wNt = pys "C:/pdal-config.bat" := by
  constructor
  · have h := (resolve_probe_path_spec wClean).2.1 rfl
    rw [h]; decide
  · exact (resolve_probe_path_spec wNt).1 (pys "C:/pdal-config.bat") rfl

/-- Claim C10: on Darwin the rpath step reads `library_dirs[0]`, so
the unconditional tail fails with `IndexError` exactly when
`library_dirs` is empty at that point — for example on a clean
non-Windows invocation, where the pre-probe default is empty — and
completes whenever `library_dirs` is nonempty. -/
theorem darwin_rpath_indexerror (w : World) (cfg : Config)
    (hd : w.platformSystem = pys "Darwin") :
    (cfg.library_dirs = [] → finishSetup w cfg = .error .indexError) ∧
    (cfg.library_dirs ≠ [] → ∃ c, finishSetup w cfg = .ok c) ∧
    (∀ v, osIsNt w = false → pys "clean" ∈ w.argv →
      parse_module_version w.versionFileLines = .ok v →
      (runSetup w).1 = .error .indexError) := by
  refine ⟨fun hemp => finishSetup_darwin_empty w cfg hd hemp,
          fun hne => finishSetup_nonempty_ok w cfg hne, ?_⟩
  intro v hnt hcl hv
  have hcon : w.argv.contains (pys "clean") = true := List.elem_eq_true_of_mem hcl
  have hcond : (resolve_pdal_config w ≠ [] && !w.argv.contains (pys "clean")) = false := by
    rw [hcon]; simp
  have hinit : (initialConfig w).library_dirs = [] := by
    simp [initialConfig, hnt]
  rw [runSetup_skip w v hv hcond]
  exact finishSetup_darwin_empty w (initialConfig w) hd hinit

/-- Witness for claim C10 on the Darwin clean world (empty
`library_dirs` fails, a nonempty one completes). -/
theorem darwin_rpath_indexerror_witness :
    finishSetup wDarwinClean (initialConfig wDarwinClean) = .error .indexError ∧
    (∃ c, finishSetup wDarwinClean (initialConfig wNt) = .ok c) ∧
    (runSetup wDarwinClean).1 = .error .indexError := by
  have h1 := darwin_rpath_indexerror wDarwinClean (initialConfig wDarwinClean) rfl
  have h2 := darwin_rpath_indexerror wDarwinClean (initialConfig wNt) rfl
  exact ⟨h1.1 (by decide), h2.2.1 (by decide),
    h1.2.2 (pys "1.2.3") (by decide) (by decide) (by decide)⟩
